import Mathlib

set_option maxRecDepth 8000

/-!
Shallow embedding of the layout-inference and paragraph-assembly engine of
`pdf2html.py` (function `convert_pdfxml_to_html` and its local helpers).

Conventions used throughout:
  * XML attribute values that the source converts with `int(...)` are modelled
    as `Int` (coordinates) or `Nat` (sizes, which are non-negative in the
    pdftohtml output); Python's floor division `/` on ints is `Int.fdiv` /
    `Nat.div`.
  * Python `None` and the module's `NotFound` sentinel are modelled as
    `Option.none`; Python truthiness of an int is `v ≠ 0`, of a string is
    non-emptiness.
  * Python exceptions are modelled by the `PyExc` inductive whose constructors
    mirror the exception classes the program can actually raise.
-/

/-- The local `Font` class: identity by value on (size, family, color),
all read as raw attribute strings. -/
structure Font where
  size : String
  family : String
  color : String
deriving DecidableEq, Repr

/-- Inline-markup tree below a `<text>` chunk (e.g. `<i><b>...</b></i>`):
tag, `.text`, child elements, `.tail`, mirroring ElementTree nodes. -/
inductive Markup where
  | node : String → Option String → List Markup → Option String → Markup
deriving Repr

/-- ElementTree `.tag`. -/
def Markup.tag : Markup → String
  | .node t _ _ _ => t

/-- ElementTree `.text`. -/
def Markup.mtext : Markup → Option String
  | .node _ x _ _ => x

/-- ElementTree child list. -/
def Markup.children : Markup → List Markup
  | .node _ _ cs _ => cs

/-- A `<text>` chunk with its geometry attributes already converted by
`int(...)`, its font reference already resolved to a `Font` value, its
`.text`, and its child markup elements. -/
structure Frag where
  top : Int
  left : Int
  width : Int
  height : Int
  font : Font
  text : Option String
  children : List Markup
deriving Repr

/-- Python truthiness of an ElementTree `.text` attribute:
`None` and the empty string are falsy. -/
def truthyS : Option String → Bool
  | none => false
  | some s => !s.isEmpty

/-- Python truthiness of an int: zero is falsy. -/
def truthyI (v : Int) : Bool := v != 0

/-- The local `drop_cap(prev_chunk, chunk)` predicate, line for line:
requires both chunks to carry truthy `.text`, previous text of length 1–2,
previous strictly taller, horizontal gap within half the previous width, and
top- or bottom-edge mismatch beyond a quarter of the previous height.
Python's `/` on ints floors, hence `Int.fdiv`. -/
def drop_cap (prev_chunk chunk : Frag) : Bool :=
  if !truthyS prev_chunk.text || !truthyS chunk.text then false
  else
    let pt := prev_chunk.text.getD ""
    if !(decide (1 ≤ pt.length) && decide (pt.length ≤ 2)) then false
    else if prev_chunk.height ≤ chunk.height then false
    else
      let drop_cap_horiz_gap := Int.fdiv prev_chunk.width 2
      let drop_cap_vert_gap := Int.fdiv prev_chunk.height 4
      if |prev_chunk.left + prev_chunk.width - chunk.left| > drop_cap_horiz_gap then false
      else
        decide (|prev_chunk.top - chunk.top| > drop_cap_vert_gap) ||
        decide (|prev_chunk.top + prev_chunk.height - chunk.top - chunk.height| >
                  drop_cap_vert_gap)

/-- Result of classifying one non-suppressed chunk against the previous
visible chunk.  The source computes booleans `start_superscript`,
`end_superscript` and `continues_paragraph`; the four mutually exclusive
outcomes they induce are reified here. -/
inductive ClassifyResult where
  | new_block
  | continue_block
  | open_superscript
  | close_superscript
deriving DecidableEq, Repr

/-- The document-wide constants the classifier consults, in the resolved
(integer) regime of a non-degenerate document: `most_frequent_leading`,
the current page parity's `left_margin` and `indent` (the `-1` disabled
sentinel is an ordinary integer here, exactly as in the source after the
`odd_indent = -1` assignments), `horiz_leeway` and `text_width`. -/
structure Stats where
  most_frequent_leading : Int
  left_margin : Int
  indent : Int
  horiz_leeway : Int
  text_width : Int
deriving Repr

/-- `leading_leeway = 1`, the superscript-jitter allowance. -/
def leading_leeway : Int := 1

/-- The continuation decision for a non-suppressed chunk with a previous
visible chunk, mirroring lines 521–537 of the source: the `if/elif` pair
sets `start_superscript` / `end_superscript`, and `continues_paragraph`
is the regular five-condition conjunction OR same-top OR drop-cap. -/
def classify (st : Stats) (prev_was_superscript : Bool) (prev_chunk chunk : Frag) :
    ClassifyResult :=
  let leading := chunk.top - prev_chunk.top
  if leading < st.most_frequent_leading ∧ chunk.height < prev_chunk.height then
    .open_superscript
  else if leading < 0 ∧ chunk.height > prev_chunk.height ∧ prev_was_superscript = true then
    .close_superscript
  else if (chunk.left ≠ st.indent ∧
           chunk.left ≤ prev_chunk.left + st.horiz_leeway ∧
           prev_chunk.left + prev_chunk.width ≥
             st.left_margin + st.horiz_leeway + st.text_width ∧
           leading ≤ st.most_frequent_leading + leading_leeway ∧
           chunk.font = prev_chunk.font) ∨
          chunk.top = prev_chunk.top ∨
          drop_cap prev_chunk chunk = true then
    .continue_block
  else
    .new_block

/-- A sample font for concrete instances. -/
def font0 : Font := { size := "12", family := "Times", color := "#000000" }

/-- C10: the drop-cap predicate returns false whenever either chunk's text is
absent (`None`) or empty, regardless of all geometric attributes, because the
source's first guard `if not prev_chunk.text or not chunk.text: return False`
fires before any geometry is examined. -/
theorem c10_drop_cap_requires_text (prev_chunk chunk : Frag)
    (h : prev_chunk.text = none ∨ prev_chunk.text = some "" ∨
         chunk.text = none ∨ chunk.text = some "") :
    drop_cap prev_chunk chunk = false := by
  have ht : truthyS prev_chunk.text = false ∨ truthyS chunk.text = false := by
    rcases h with h | h | h | h
    · left; rw [h]; rfl
    · left; rw [h]; decide
    · right; rw [h]; rfl
    · right; rw [h]; decide
  unfold drop_cap
  rcases ht with ht | ht <;> simp [ht]

/-- A drop-cap-shaped previous chunk (tall, short) whose literal text is
absent: all geometric drop-cap conditions hold against `c10curr`. -/
def c10prev : Frag :=
  { top := 100, left := 60, width := 30, height := 40,
    font := font0, text := none, children := [] }

/-- A first-line chunk beside `c10prev`. -/
def c10curr : Frag :=
  { top := 105, left := 92, width := 300, height := 12,
    font := font0, text := some "he story begins", children := [] }

/-- Witness for C10 at a concrete pair: the previous chunk carries no text
(while the geometry — height 40 vs 12, adjacency 92 − (60+30) = 2 ≤ 15,
vertical overlap |100−105| = 5 ≤ 10 but bottom gap |140−117| = 23 > 10 —
would otherwise qualify), and the predicate returns false. -/
theorem c10_drop_cap_requires_text_witness :
    (c10prev.text = none ∨ c10prev.text = some "" ∨
     c10curr.text = none ∨ c10curr.text = some "") ∧
    drop_cap c10prev c10curr = false :=
  ⟨Or.inl rfl, c10_drop_cap_requires_text c10prev c10curr (Or.inl rfl)⟩

/-- A statistics record with positive body leading for the same-top
counterexample. -/
def c3stats : Stats :=
  { most_frequent_leading := 12, left_margin := 60, indent := 100,
    horiz_leeway := 0, text_width := 300 }

/-- Previous chunk on the shared baseline, height 20. -/
def c3prev : Frag :=
  { top := 100, left := 60, width := 400, height := 20,
    font := font0, text := some "x", children := [] }

/-- Current chunk on the same baseline but shorter (height 10): the
superscript-open test `leading < most_frequent_leading and height <
prev height` fires first. -/
def c3curr : Frag :=
  { top := 100, left := 460, width := 20, height := 10,
    font := font0, text := some "y", children := [] }

/-- Counterexample to C3 as stated: a pair with equal `top` values for which
the classifier does not return CONTINUE — the superscript-open branch (tested
before the same-top disjunct) captures it, because `leading = 0 <
most_frequent_leading = 12` and the current chunk is shorter. -/
theorem c3_counterexample :
    c3curr.top = c3prev.top ∧
    classify c3stats false c3prev c3curr ≠ ClassifyResult.continue_block := by
  constructor
  · rfl
  · decide

/-- C3 (amended): a pair with equal `top` values is always merged into the
open block — the classifier returns either CONTINUE or OPEN_SUPERSCRIPT, and
whenever the superscript-open test does not fire (current chunk not shorter,
or non-positive body leading) it returns CONTINUE regardless of font, left
offset, or width. -/
theorem c3_same_top_merges (st : Stats) (b : Bool) (prev_chunk chunk : Frag)
    (h : chunk.top = prev_chunk.top) :
    (classify st b prev_chunk chunk = ClassifyResult.continue_block ∨
     classify st b prev_chunk chunk = ClassifyResult.open_superscript) ∧
    (¬ (0 < st.most_frequent_leading ∧ chunk.height < prev_chunk.height) →
      classify st b prev_chunk chunk = ClassifyResult.continue_block) := by
  have hz : chunk.top - prev_chunk.top = 0 := by omega
  unfold classify
  rw [hz]
  by_cases hsup : (0 : Int) < st.most_frequent_leading ∧ chunk.height < prev_chunk.height
  · rw [if_pos hsup]
    exact ⟨Or.inr rfl, fun hc => absurd hsup hc⟩
  · rw [if_neg hsup]
    have hend : ¬ ((0 : Int) < 0 ∧ chunk.height > prev_chunk.height ∧ b = true) := by
      intro hx
      exact absurd hx.1 (by omega)
    rw [if_neg hend]
    rw [if_pos (Or.inr (Or.inl h))]
    exact ⟨Or.inl rfl, fun _ => rfl⟩

/-- Witness for C3 (amended) at a concrete equal-top pair with equal heights:
the hypothesis holds and the classifier returns CONTINUE. -/
theorem c3_same_top_merges_witness :
    c3curr.top = c3prev.top ∧
    ((classify c3stats false c3prev { c3curr with height := 20 } =
        ClassifyResult.continue_block ∨
      classify c3stats false c3prev { c3curr with height := 20 } =
        ClassifyResult.open_superscript) ∧
     (¬ (0 < c3stats.most_frequent_leading ∧
          ({ c3curr with height := 20 } : Frag).height < c3prev.height) →
       classify c3stats false c3prev { c3curr with height := 20 } =
         ClassifyResult.continue_block)) :=
  ⟨rfl, c3_same_top_merges c3stats false c3prev { c3curr with height := 20 } rfl⟩

/-- C2: with a previous visible chunk, when neither superscript test fires,
the tops differ, and the drop-cap predicate is false, the classifier returns
CONTINUE exactly when all five regular-continuation conditions hold — current
left unequal to the parity indent, current left within `horiz_leeway` of the
previous left, previous right edge reaching `left_margin + horiz_leeway +
text_width`, vertical gap at most `most_frequent_leading + 1`, and equal
fonts — and returns NEW_BLOCK exactly when the conjunction fails. -/
theorem c2_regular_continuation (st : Stats) (b : Bool) (prev_chunk chunk : Frag)
    (h1 : ¬ (chunk.top - prev_chunk.top < st.most_frequent_leading ∧
             chunk.height < prev_chunk.height))
    (h2 : ¬ (chunk.top - prev_chunk.top < 0 ∧
             chunk.height > prev_chunk.height ∧ b = true))
    (h3 : chunk.top ≠ prev_chunk.top)
    (h4 : drop_cap prev_chunk chunk = false) :
    (classify st b prev_chunk chunk = ClassifyResult.continue_block ↔
      (chunk.left ≠ st.indent ∧
       chunk.left ≤ prev_chunk.left + st.horiz_leeway ∧
       prev_chunk.left + prev_chunk.width ≥
         st.left_margin + st.horiz_leeway + st.text_width ∧
       chunk.top - prev_chunk.top ≤ st.most_frequent_leading + 1 ∧
       chunk.font = prev_chunk.font)) ∧
    (classify st b prev_chunk chunk = ClassifyResult.new_block ↔
      ¬ (chunk.left ≠ st.indent ∧
         chunk.left ≤ prev_chunk.left + st.horiz_leeway ∧
         prev_chunk.left + prev_chunk.width ≥
           st.left_margin + st.horiz_leeway + st.text_width ∧
         chunk.top - prev_chunk.top ≤ st.most_frequent_leading + 1 ∧
         chunk.font = prev_chunk.font)) := by
  unfold classify
  rw [if_neg h1, if_neg h2]
  by_cases hf : (chunk.left ≠ st.indent ∧
       chunk.left ≤ prev_chunk.left + st.horiz_leeway ∧
       prev_chunk.left + prev_chunk.width ≥
         st.left_margin + st.horiz_leeway + st.text_width ∧
       chunk.top - prev_chunk.top ≤ st.most_frequent_leading + leading_leeway ∧
       chunk.font = prev_chunk.font)
  · rw [if_pos (Or.inl hf)]
    unfold leading_leeway at hf
    exact ⟨⟨fun _ => hf, fun _ => rfl⟩, ⟨fun hx => absurd hx (by decide), fun hx => absurd hf hx⟩⟩
  · have hcond : ¬ ((chunk.left ≠ st.indent ∧
       chunk.left ≤ prev_chunk.left + st.horiz_leeway ∧
       prev_chunk.left + prev_chunk.width ≥
         st.left_margin + st.horiz_leeway + st.text_width ∧
       chunk.top - prev_chunk.top ≤ st.most_frequent_leading + leading_leeway ∧
       chunk.font = prev_chunk.font) ∨
          chunk.top = prev_chunk.top ∨
          drop_cap prev_chunk chunk = true) := by
      rintro (hx | hx | hx)
      · exact hf hx
      · exact h3 hx
      · rw [h4] at hx; exact absurd hx (by decide)
    rw [if_neg hcond]
    unfold leading_leeway at hf
    exact ⟨⟨fun hx => absurd hx (by decide), fun hx => absurd hx hf⟩,
           ⟨fun _ => hf, fun _ => rfl⟩⟩

/-- A previous full-width body line for the C2 witness. -/
def c2prev : Frag :=
  { top := 100, left := 60, width := 400, height := 12,
    font := font0, text := some "first line", children := [] }

/-- A continuation line one leading below `c2prev`, at the margin. -/
def c2curr : Frag :=
  { top := 114, left := 60, width := 380, height := 12,
    font := font0, text := some "second line", children := [] }

/-- Statistics for the C2 witness: leading 14, margin 60, indent 100,
no leeway, paragraph width threshold 300. -/
def c2stats : Stats :=
  { most_frequent_leading := 14, left_margin := 60, indent := 100,
    horiz_leeway := 0, text_width := 300 }

/-- Witness for C2 at a concrete regular continuation: every hypothesis is
discharged concretely and the classifier equivalence follows. -/
theorem c2_regular_continuation_witness :
    ¬ (c2curr.top - c2prev.top < c2stats.most_frequent_leading ∧
       c2curr.height < c2prev.height) ∧
    ¬ (c2curr.top - c2prev.top < 0 ∧
       c2curr.height > c2prev.height ∧ false = true) ∧
    c2curr.top ≠ c2prev.top ∧
    drop_cap c2prev c2curr = false ∧
    ((classify c2stats false c2prev c2curr = ClassifyResult.continue_block ↔
      (c2curr.left ≠ c2stats.indent ∧
       c2curr.left ≤ c2prev.left + c2stats.horiz_leeway ∧
       c2prev.left + c2prev.width ≥
         c2stats.left_margin + c2stats.horiz_leeway + c2stats.text_width ∧
       c2curr.top - c2prev.top ≤ c2stats.most_frequent_leading + 1 ∧
       c2curr.font = c2prev.font)) ∧
     (classify c2stats false c2prev c2curr = ClassifyResult.new_block ↔
      ¬ (c2curr.left ≠ c2stats.indent ∧
         c2curr.left ≤ c2prev.left + c2stats.horiz_leeway ∧
         c2prev.left + c2prev.width ≥
           c2stats.left_margin + c2stats.horiz_leeway + c2stats.text_width ∧
         c2curr.top - c2prev.top ≤ c2stats.most_frequent_leading + 1 ∧
         c2curr.font = c2prev.font))) :=
  ⟨by decide, by decide, by decide, by decide,
   c2_regular_continuation c2stats false c2prev c2curr
     (by decide) (by decide) (by decide) (by decide)⟩

/-- The `left_margin` override (source lines 420–423): applied only when the
option is present, truthy (non-zero) and `>= 0`. -/
def override_left_margin (opt_left_margin : Option Int) (inferred : Int) : Int :=
  match opt_left_margin with
  | some v => if truthyI v ∧ v ≥ 0 then v else inferred
  | none => inferred

/-- The `horiz_leeway` override (source lines 425–428), same guard shape. -/
def override_horiz_leeway (opt_horiz_leeway : Option Int) (inferred : Int) : Int :=
  match opt_horiz_leeway with
  | some v => if truthyI v ∧ v ≥ 0 then v else inferred
  | none => inferred

/-- The `indent` override (source lines 430–433), same guard shape. -/
def override_indent (opt_indent : Option Int) (inferred : Int) : Int :=
  match opt_indent with
  | some v => if truthyI v ∧ v ≥ 0 then v else inferred
  | none => inferred

/-- The `leading` override (source lines 444–447): guard is truthiness and
`> 0` (strict, unlike the other three). -/
def override_leading (opt_leading : Option Int) (inferred : Int) : Int :=
  match opt_leading with
  | some v => if truthyI v ∧ v > 0 then v else inferred
  | none => inferred

/-- Counterexample to C4 as stated: the user supplies `left_margin = 0`, a
non-negative value, yet the inferred value 60 survives — the Python guard
`opts.left_margin and opts.left_margin >= 0` is falsy at 0, so the override
is skipped (and likewise for `indent`, `horiz_leeway` and `leading`). -/
theorem c4_counterexample :
    override_left_margin (some 0) 60 = 60 ∧
    override_indent (some 0) 100 = 100 ∧
    override_horiz_leeway (some 0) 5 = 5 ∧
    override_leading (some 0) 14 = 14 ∧
    override_left_margin (some 0) 60 ≠ 0 := by decide

/-- C4 (amended): a supplied override replaces the inferred statistic exactly
when it is strictly positive; a supplied 0 (truthiness-falsy) and any negative
value (rejected by the `>= 0`, resp. `> 0`, guard) leave the inferred value in
place, and an absent option always leaves the inferred value in place. -/
theorem c4_override_iff_positive (v inferred : Int) :
    override_left_margin (some v) inferred = (if 0 < v then v else inferred) ∧
    override_indent (some v) inferred = (if 0 < v then v else inferred) ∧
    override_horiz_leeway (some v) inferred = (if 0 < v then v else inferred) ∧
    override_leading (some v) inferred = (if 0 < v then v else inferred) ∧
    override_left_margin none inferred = inferred ∧
    override_indent none inferred = inferred ∧
    override_horiz_leeway none inferred = inferred ∧
    override_leading none inferred = inferred := by
  unfold override_left_margin override_indent override_horiz_leeway override_leading truthyI
  by_cases h : (0 : Int) < v
  · have hg : (v != 0) = true ∧ v ≥ 0 := by
      constructor
      · simp [bne_iff_ne]; omega
      · omega
    have hg2 : (v != 0) = true ∧ v > 0 := ⟨hg.1, h⟩
    simp only [if_pos hg, if_pos hg2, if_pos h]
    simp
  · have hg : ¬ ((v != 0) = true ∧ v ≥ 0) := by
      rintro ⟨h1, h2⟩
      rw [bne_iff_ne] at h1
      omega
    have hg2 : ¬ ((v != 0) = true ∧ v > 0) := by
      rintro ⟨h1, h2⟩
      exact h h2
    simp only [if_neg hg, if_neg hg2, if_neg h]
    simp

/-- Reasons attached to a suppressed chunk's HTML comment. -/
inductive SuppressReason where
  | initial_pages
  | header
  | footer
deriving DecidableEq, Repr

/-- The comment prefix string for each reason, as written by the source
(note `INITIAL PAGES` with a space). -/
def reason_string : SuppressReason → String
  | .initial_pages => "INITIAL PAGES"
  | .header => "HEADER"
  | .footer => "FOOTER"

/-- The effective `header_pos` local (source lines 449–453): set only when
the option is present, truthy and not `-1`. -/
def computed_header_pos (opt_header_pos : Option Int) : Option Int :=
  match opt_header_pos with
  | some v => if truthyI v ∧ v ≠ -1 then some v else none
  | none => none

/-- The effective `footer_pos` local (source lines 454–458): set when the
footer option is present and truthy AND `opts.header_pos != -1` — the guard
really reads the HEADER option, exactly as in the source. -/
def computed_footer_pos (opt_footer_pos opt_header_pos : Option Int) : Option Int :=
  match opt_footer_pos with
  | some v => if truthyI v ∧ opt_header_pos ≠ some (-1) then some v else none
  | none => none

/-- The per-chunk suppression decision (source lines 507–517): an `if/elif`
chain testing initial pages, then the header cutoff (`top <= header_pos`),
then the footer cutoff (`top >= footer_pos`), each guarded by truthiness of
the corresponding value. -/
def suppress_check (skip_initial_pages header_pos footer_pos : Option Int)
    (page_number top : Int) : Option SuppressReason :=
  if skip_initial_pages.elim false (fun n => truthyI n && decide (page_number ≤ n)) then
    some .initial_pages
  else if header_pos.elim false (fun h => truthyI h && decide (top ≤ h)) then
    some .header
  else if footer_pos.elim false (fun f => truthyI f && decide (top ≥ f)) then
    some .footer
  else
    none

/-- C5 evaluated at the failing input: the user configures `footer_pos = 600`
and `header_pos = -1` (the documented way to leave the header filter
disabled), and a page-1 chunk sits at `top = 700`, well below the footer
cutoff.  The claim requires suppression with reason FOOTER; the code disables
the footer entirely because the footer guard mistakenly tests
`opts.header_pos != -1`, so the chunk is not suppressed at all.  With the
header option absent instead, the very same chunk is suppressed as FOOTER,
showing the footer test is not independent of the header setting. -/
theorem c5_footer_depends_on_header :
    computed_footer_pos (some 600) (some (-1)) = none ∧
    suppress_check none (computed_header_pos (some (-1)))
      (computed_footer_pos (some 600) (some (-1))) 1 700 = none ∧
    suppress_check none (computed_header_pos (some (-1)))
      (computed_footer_pos (some 600) none) 1 700 = some SuppressReason.footer := by
  decide

/-- The Python exception classes this program can raise, by name:
`KeyError` (builtin, from `fonts[...]` misses), the module's own `Error`
class (raised only for a bad root tag), and `IndexError` (builtin, from
indexing an empty list). -/
inductive PyExc where
  | KeyError : String → PyExc
  | AppError : String → PyExc
  | IndexError : PyExc
deriving DecidableEq, Repr

/-- Python dict lookup on the `fonts` table built from `<fontspec>`
declarations: later bindings of the same id overwrite earlier ones. -/
def dict_get (fonts : List (String × Font)) (k : String) : Option Font :=
  ((fonts.filter (fun p => p.1 == k)).getLast?).map (fun p => p.2)

/-- `fonts[chunk.get('font')]`: a miss raises the builtin `KeyError`, which
is the only failure the source produces for an undeclared font id — the
module defines no dedicated font-resolution exception. -/
def resolve_font (fonts : List (String × Font)) (k : String) : Except PyExc Font :=
  match dict_get fonts k with
  | some f => Except.ok f
  | none => Except.error (PyExc.KeyError k)

/-- The root-tag check (source lines 224–226): the only place the module's
own `Error` class is raised. -/
def check_root (root_tag : String) : Except PyExc Unit :=
  if root_tag = "pdf2xml" then Except.ok ()
  else Except.error (PyExc.AppError ("Expected a pdf2xml document, got " ++ root_tag))

/-- Counterexample to C6 as stated: a fragment referencing font id "7" in a
document that declares only id "0" fails with the builtin `KeyError`, not
with any dedicated `FontResolutionError` — no such class exists in the
program, so the caller receives a generic lookup exception (it differs from
the malformed-root `Error` only in being a different builtin). -/
theorem c6_counterexample :
    resolve_font [("0", font0)] "7" = Except.error (PyExc.KeyError "7") ∧
    PyExc.KeyError "7" ≠ PyExc.AppError "Expected a pdf2xml document, got html" := by
  constructor
  · rfl
  · decide

/-- C6 (amended): a fragment referencing an undeclared font id makes the
conversion fail, but with the builtin `KeyError` carrying the id — not with a
distinct named `FontResolutionError`, which the program never defines; the
malformed-root case is the only one using the module's named `Error` class. -/
theorem c6_undeclared_font_keyerror (fonts : List (String × Font)) (k : String)
    (h : dict_get fonts k = none) :
    resolve_font fonts k = Except.error (PyExc.KeyError k) := by
  unfold resolve_font
  rw [h]

/-- Witness for C6 (amended): the empty font table misses id "7" and the
lookup fails with `KeyError "7"`. -/
theorem c6_undeclared_font_keyerror_witness :
    dict_get [] "7" = none ∧
    resolve_font [] "7" = Except.error (PyExc.KeyError "7") :=
  ⟨rfl, c6_undeclared_font_keyerror [] "7" rfl⟩

/-- The character class of the de-hyphenation regex
`-\n([a-ząčęėįšųūž&])`: ASCII lowercase, nine Lithuanian letters, and the
ampersand (kept so entity references survive the join). -/
def dehyph_letter (c : Char) : Bool :=
  (decide ('a' ≤ c) && decide (c ≤ 'z')) ||
    (['ą', 'č', 'ę', 'ė', 'į', 'š', 'ų', 'ū', 'ž', '&'].contains c)

/-- One left-to-right pass of `re.sub(r'-\n([letter])', r'\1', s)`: at each
position, a hyphen followed by a newline followed by a class letter is
replaced by just that letter and scanning resumes after the replacement
(re.sub does not rescan the substituted text); otherwise the scan advances
one character.  When the scan fails at a hyphen that is followed by a
newline, the newline itself can never begin a match, so the pass provably
resumes at the character after it — the second equation fuses those two
single-character advances to keep the recursion structural. -/
def dehyphenate : List Char → List Char
  | [] => []
  | '-' :: '\n' :: c :: rest2 =>
      if dehyph_letter c then c :: dehyphenate rest2
      else '-' :: '\n' :: dehyphenate (c :: rest2)
  | c :: rest => c :: dehyphenate rest

/-- The five ligature replacements (`str.replace`, each a single code point
U+FB00..U+FB04 expanded to plain letters). -/
def expand_ligature (c : Char) : List Char :=
  if c = 'ﬀ' then ['f', 'f']
  else if c = 'ﬁ' then ['f', 'i']
  else if c = 'ﬂ' then ['f', 'l']
  else if c = 'ﬃ' then ['f', 'f', 'i']
  else if c = 'ﬄ' then ['f', 'f', 'l']
  else [c]

/-- The `postprocess` helper: de-hyphenation first, then ligature expansion
(the five `replace` calls commute with each other and equal this single map,
since each pattern is a distinct single code point and no replacement text
contains a ligature). -/
def postprocess (s : List Char) : List Char :=
  (dehyphenate s).flatMap expand_ligature

/-- `postprocess` lifted to `String`, as applied to every `.text` and
`.tail` of the output tree. -/
def postprocessS (s : String) : String :=
  String.mk (postprocess s.data)

/-- Counterexample to C7 as stated: on the string hyphen, newline, hyphen,
newline, `a`, one pass removes only the second hyphen–newline pair (the scan
at position 0 fails because the next character is a hyphen, and re.sub does
not revisit earlier positions), leaving hyphen, newline, `a`; a second pass
removes that pair too, so applying the Normalizer twice differs from applying
it once. -/
theorem c7_counterexample :
    postprocess (postprocess ['-', '\n', '-', '\n', 'a']) ≠
      postprocess ['-', '\n', '-', '\n', 'a'] := by decide

/-- C7 (amended): the Normalizer rewrites `"exam-\nple"` to `"example"`, but
it is not idempotent in general — a single left-to-right pass can expose a
new hyphen–newline–letter occurrence (from an earlier failed match or from a
ligature expansion) that only a further pass would remove. -/
theorem c7_example_normalizes :
    postprocessS (String.mk ['e', 'x', 'a', 'm', '-', '\n', 'p', 'l', 'e']) =
      "example" := by decide

/-- Insert into a sorted list (ascending under `le`), keeping earlier equal
elements first — the standard stable insertion. -/
def ordered_insert {α : Type} (le : α → α → Bool) (x : α) : List α → List α
  | [] => [x]
  | y :: ys => if le x y then x :: y :: ys else y :: ordered_insert le x ys

/-- Stable insertion sort, standing in for Python's `list.sort()` (stability
is irrelevant here because the sorted pairs are pairwise distinct, so any
sort yields the Python result). -/
def insertion_sort {α : Type} (le : α → α → Bool) : List α → List α
  | [] => []
  | x :: xs => ordered_insert le x (insertion_sort le xs)

/-- Inserting grows the length by one. -/
theorem ordered_insert_length {α : Type} (le : α → α → Bool) (x : α) (l : List α) :
    (ordered_insert le x l).length = l.length + 1 := by
  induction l with
  | nil => rfl
  | cons y ys ih =>
      unfold ordered_insert
      by_cases h : le x y
      · rw [if_pos h]; rfl
      · rw [if_neg h]
        simp [List.length, ih]

/-- Sorting preserves length. -/
theorem insertion_sort_length {α : Type} (le : α → α → Bool) (l : List α) :
    (insertion_sort le l).length = l.length := by
  induction l with
  | nil => rfl
  | cons x xs ih =>
      unfold insertion_sort
      rw [ordered_insert_length, ih]
      rfl

/-- `collections.defaultdict(int)` frequency counting, presented as the list
of (count, value) pairs over the distinct values — the per-pair data is
independent of dict iteration order, and every consumer sorts the pairs
before use, so this determinizes exactly as the source's `sort()` does. -/
def count_frequencies {α : Type} [DecidableEq α] (vs : List α) : List (Nat × α) :=
  vs.dedup.map (fun v => (vs.count v, v))

/-- Python tuple comparison on a (count, value) pair under a value order:
count first, value as tie-break. -/
def pair_le {α : Type} [DecidableEq α] (le_val : α → α → Bool) (a b : Nat × α) : Bool :=
  decide (a.1 < b.1) || (decide (a.1 = b.1) && le_val a.2 b.2)

/-- Python's `l[-n:]`: the last `n` elements. -/
def take_last {α : Type} (n : Nat) (l : List α) : List α :=
  l.drop (l.length - n)

/-- `n_most_frequent(attr, n)`: sort (freq, value) pairs ascending — the
value tie-break uses the given order on values, matching the source, where
the pair holds the raw attribute value — and keep the last `n` values. -/
def n_most_frequent_by {α : Type} [DecidableEq α] (le_val : α → α → Bool)
    (vs : List α) (n : Nat) : List α :=
  (take_last n (insertion_sort (pair_le le_val) (count_frequencies vs))).map
    (fun p => p.2)

/-- `n_most_frequent` over a numeric attribute such as `width`: the XML
attribute is a decimal numeral string, so the source's tie-break compares the
decimal representations; values are modelled as the denoted naturals with the
representation order reproduced via `Nat.repr`. -/
def n_most_frequent_nat (vs : List Nat) (n : Nat) : List Nat :=
  n_most_frequent_by (fun a b => decide (Nat.repr a ≤ Nat.repr b)) vs n

/-- Python `max` over a list: raises on the empty list. -/
def py_max (l : List Nat) : Option Nat :=
  match l with
  | [] => none
  | x :: xs => some (xs.foldl max x)

/-- `text_width` (source lines 400–406): the largest of the three most
frequent widths (0 when there are none, via the `except ValueError` arm),
scaled by `* 8 / 10` in truncating integer arithmetic. -/
def text_width (ws : List Nat) : Nat :=
  (match py_max (n_most_frequent_nat ws 3) with
   | some m => m
   | none => 0) * 8 / 10

/-- The unscaled selection: the largest of the three most frequent widths. -/
def largest_of_top3 (ws : List Nat) : Nat :=
  (py_max (n_most_frequent_nat ws 3)).getD 0

/-- A nonempty width population yields a nonempty top-3 selection. -/
theorem n_most_frequent_nat_ne_nil (ws : List Nat) (h : ws ≠ []) :
    n_most_frequent_nat ws 3 ≠ [] := by
  unfold n_most_frequent_nat n_most_frequent_by take_last
  intro hc
  have hlen := congrArg List.length hc
  rw [List.length_map, List.length_drop, insertion_sort_length] at hlen
  have hcf : (count_frequencies ws).length ≠ 0 := by
    unfold count_frequencies
    rw [List.length_map]
    intro h0
    exact h ((List.dedup_eq_nil ws).mp (List.length_eq_zero.mp h0))
  simp at hlen
  omega

/-- C8: for every non-empty width population, `text_width` equals the largest
of the three most frequent widths multiplied by 0.8 with truncation toward
zero — `Nat.floor` of the exact rational product, which the integer
expression `w * 8 / 10` computes. -/
theorem c8_text_width_truncates (ws : List Nat) (h : ws ≠ []) :
    text_width ws = Nat.floor ((8 / 10 : ℚ) * largest_of_top3 ws) := by
  obtain ⟨x, xs, hx⟩ := List.exists_cons_of_ne_nil (n_most_frequent_nat_ne_nil ws h)
  unfold text_width largest_of_top3
  rw [hx]
  show (xs.foldl max x) * 8 / 10 = Nat.floor ((8 / 10 : ℚ) * (xs.foldl max x))
  set m := xs.foldl max x
  have : (8 / 10 : ℚ) * m = ((m * 8 : ℕ) : ℚ) / ((10 : ℕ) : ℚ) := by
    push_cast
    ring
  rw [this, Nat.floor_div_nat, Nat.floor_natCast]

/-- Witness for C8 at the one-element population `[7]`: the hypothesis holds
and `text_width [7] = 5`, the truncation of 5.6 (a rounding implementation
would produce 6). -/
theorem c8_text_width_truncates_witness :
    ([7] : List Nat) ≠ [] ∧
    text_width [7] = Nat.floor ((8 / 10 : ℚ) * largest_of_top3 [7]) ∧
    text_width [7] = 5 :=
  ⟨by decide, c8_text_width_truncates [7] (by decide), by decide⟩

/-- A raw `<text>` element as the estimator sees it: attribute values
converted by `int(...)` (widths and heights are non-negative in pdftohtml
output), and the font reference still an unresolved id string. -/
structure RawText where
  top : Int
  left : Int
  width : Nat
  height : Nat
  font : String
deriving Repr

/-- A `<page>` element: number plus its `<text>` children in document
order. -/
structure RawPage where
  number : Int
  texts : List RawText
deriving Repr

/-- The parsed document: pages, plus the `fonts` dict accumulated from all
`<fontspec>` declarations (document-wide scope). -/
structure RawDoc where
  pages : List RawPage
  fonts : List (String × Font)
deriving Repr

/-- `odd_pages(page)`: page number is odd (`% 2 == 1`, Python semantics for
a positive modulus agree with `Int.emod`). -/
def odd_page (p : RawPage) : Bool := p.number % 2 == 1

/-- `even_pages(page)`. -/
def even_page (p : RawPage) : Bool := p.number % 2 == 0

/-- The `leading` pseudo-attribute of `iter_attrs`: consecutive `top` deltas
between adjacent chunks of one page (never across pages). -/
def page_leadings : List RawText → List Int
  | [] => []
  | [_] => []
  | t1 :: t2 :: rest => (t2.top - t1.top) :: page_leadings (t2 :: rest)

/-- `iter_attrs('leading')` over the whole document. -/
def iter_leading (d : RawDoc) : List Int :=
  d.pages.flatMap (fun p => page_leadings p.texts)

/-- `iter_attrs('top')`. -/
def iter_tops (d : RawDoc) : List Int :=
  d.pages.flatMap (fun p => p.texts.map (fun t => t.top))

/-- `iter_attrs('width')`. -/
def iter_widths (d : RawDoc) : List Nat :=
  d.pages.flatMap (fun p => p.texts.map (fun t => t.width))

/-- `iter_attrs('height')`. -/
def iter_heights (d : RawDoc) : List Nat :=
  d.pages.flatMap (fun p => p.texts.map (fun t => t.height))

/-- `iter_attrs('font')`. -/
def iter_fonts (d : RawDoc) : List String :=
  d.pages.flatMap (fun p => p.texts.map (fun t => t.font))

/-- `iter_attrs('left', pagefilter)`. -/
def iter_lefts (pagefilter : RawPage → Bool) (d : RawDoc) : List Int :=
  (d.pages.filter pagefilter).flatMap (fun p => p.texts.map (fun t => t.left))

/-- `n_most_frequent('leading', n)`: leading values enter the frequency dict
as ints, so the sort tie-break is numeric. -/
def n_most_frequent_int (vs : List Int) (n : Nat) : List Int :=
  n_most_frequent_by (fun a b => decide (a ≤ b)) vs n

/-- `n_most_frequent('font', n)`: font ids are strings, compared as
strings. -/
def n_most_frequent_str (vs : List String) (n : Nat) : List String :=
  n_most_frequent_by (fun a b => decide (a ≤ b)) vs n

/-- `n_most_frequent('left', n)`: left offsets are attribute strings in the
frequency pairs (the `int` conversion happens outside, in
`margin_and_indent`), so the tie-break compares decimal representations. -/
def n_most_frequent_left (vs : List Int) (n : Nat) : List Int :=
  n_most_frequent_by (fun a b => decide (toString a ≤ toString b)) vs n

/-- `most_frequent` for int-valued attributes; the empty case is the
`NotFound()` sentinel. -/
def most_frequent_int (vs : List Int) : Option Int :=
  match n_most_frequent_int vs 1 with
  | [] => none
  | v :: _ => some v

/-- `most_frequent` for the `height` attribute. -/
def most_frequent_nat (vs : List Nat) : Option Nat :=
  match n_most_frequent_nat vs 1 with
  | [] => none
  | v :: _ => some v

/-- `most_frequent` for the `font` attribute. -/
def most_frequent_str (vs : List String) : Option String :=
  match n_most_frequent_str vs 1 with
  | [] => none
  | v :: _ => some v

/-- `margin_and_indent(pagefilter)`: the two most frequent left offsets,
sorted ascending numerically; with fewer than two distinct values the missing
slots are `NotFound()`. -/
def margin_and_indent (lefts : List Int) : Option Int × Option Int :=
  match insertion_sort (fun a b => decide (a ≤ b)) (n_most_frequent_left lefts 2) with
  | [a, b] => (some a, some b)
  | [a] => (some a, none)
  | _ => (none, none)

/-- The (value, freq) pairs used by `n_smallest`/`n_largest`, whose sort key
is the `int(...)`-converted value first. -/
def value_freq_pairs (vs : List Int) : List (Int × Nat) :=
  vs.dedup.map (fun v => (v, vs.count v))

/-- Tuple order on (value, freq). -/
def vf_le (a b : Int × Nat) : Bool :=
  decide (a.1 < b.1) || (decide (a.1 = b.1) && decide (a.2 ≤ b.2))

/-- `n_smallest(attr, n)`: the `n` numerically smallest distinct values. -/
def n_smallest (vs : List Int) (n : Nat) : List Int :=
  ((insertion_sort vf_le (value_freq_pairs vs)).take n).map (fun p => p.1)

/-- `n_largest(attr, n)`: the `n` numerically largest distinct values. -/
def n_largest (vs : List Int) (n : Nat) : List Int :=
  (take_last n (insertion_sort vf_le (value_freq_pairs vs))).map (fun p => p.1)

/-- The document-wide statistics computed by the estimation phase (source
lines 370–410), `NotFound()` sentinels modelled as `none`. -/
structure LayoutStats where
  most_frequent_leading : Option Int
  most_frequent_height : Option Nat
  most_frequent_font : Option Font
  odd_left : Option Int
  odd_indent : Option Int
  even_left : Option Int
  even_indent : Option Int
  horiz_leeway : Int
  text_width : Nat
  maybe_header : Int
  maybe_footer : Int
deriving Repr

/-- The estimation phase in source order: the frequency-based statistics
(lines 370–406) degrade to sentinels or 0 on missing data, but the
header/footer autodetection (lines 409–410) indexes `n_smallest('top', 1)[0]`
and `n_largest('top', 1)[0]`, which raises the builtin `IndexError` when the
document has no text chunks at all. -/
def estimate (d : RawDoc) : Except PyExc LayoutStats :=
  let mfl := most_frequent_int (iter_leading d)
  let mfh := most_frequent_nat (iter_heights d)
  let mff := (most_frequent_str (iter_fonts d)).bind (fun k => dict_get d.fonts k)
  let oi := margin_and_indent (iter_lefts odd_page d)
  let ei := margin_and_indent (iter_lefts even_page d)
  let hl : Int :=
    match ei.1, oi.1 with
    | some e, some o => |e - o|
    | _, _ => 0
  let tw := text_width (iter_widths d)
  match n_smallest (iter_tops d) 1, n_largest (iter_tops d) 1 with
  | mh :: _, mf :: _ =>
      Except.ok
        { most_frequent_leading := mfl, most_frequent_height := mfh,
          most_frequent_font := mff,
          odd_left := oi.1, odd_indent := oi.2,
          even_left := ei.1, even_indent := ei.2,
          horiz_leeway := hl, text_width := tw,
          maybe_header := mh, maybe_footer := mf }
  | _, _ => Except.error PyExc.IndexError

/-- A document with a page but zero `<text>` fragments. -/
def c1_empty_doc : RawDoc :=
  { pages := [{ number := 1, texts := [] }], fonts := [] }

/-- C1 evaluated at the failing input: on a document with zero text
fragments the estimation phase raises `IndexError` — `n_smallest('top', 1)`
is empty and the source indexes `[0]` into it unguarded — so the conversion
does not complete, produces no block sequence, and never reaches the
assembly loop.  (The statistics computed before that line do degrade to
sentinels, as the claim says, but the header guess aborts the run.) -/
theorem c1_estimator_raises_on_empty :
    estimate c1_empty_doc = Except.error PyExc.IndexError := rfl

/-- The `while bold.tag != 'b'` descent (source lines 460–469), started at
the chunk element itself: stop at the first `b` tag, descend while exactly
one child, give up otherwise. -/
def find_bold : Markup → Option Markup
  | .node tag tx cs tl =>
      if tag = "b" then some (.node tag tx cs tl)
      else
        match cs with
        | [c] => find_bold c
        | _ => none

/-- `looks_like_a_heading(chunk)` (source lines 460–479).  Two remarks on
fidelity: `if bold:` tests ElementTree element truthiness, which is
`len(bold) != 0`, so a found `<b>` leaf with no child elements falls through
to the all-digits branch exactly as in Python; and `isalpha`/`isdigit` are
modelled on ASCII (the classifier claims in scope never exercise non-ASCII
heading text).  The font comparison is against the possibly-absent most
frequent font (`fonts.get` may miss): a real font never equals `None`. -/
def looks_like_a_heading (most_frequent_font : Option Font)
    (most_frequent_height : Int) (chunk : Frag) : Bool :=
  let bold : Option Markup :=
    if chunk.children.length != 1 then none
    else find_bold (Markup.node "text" chunk.text chunk.children none)
  match bold with
  | some b =>
      if !b.children.isEmpty then
        decide (some chunk.font ≠ most_frequent_font) &&
        decide (chunk.height ≥ most_frequent_height) &&
        truthyS b.mtext &&
        (b.mtext.getD "").data.any Char.isAlpha
      else
        decide (some chunk.font ≠ most_frequent_font) &&
        decide (chunk.height > most_frequent_height) &&
        truthyS chunk.text &&
        (chunk.text.getD "").data.all Char.isDigit
  | none =>
      decide (some chunk.font ≠ most_frequent_font) &&
      decide (chunk.height > most_frequent_height) &&
      truthyS chunk.text &&
      (chunk.text.getD "").data.all Char.isDigit

/-- How one chunk entered a block: as the seeding chunk, nested in a
`<sup>` span, or joined inline with the given joiner string. -/
inductive JoinKind where
  | seed
  | sup_nested
  | joined : String → JoinKind
deriving Repr

/-- One item appended to `<body>`: an open or closed block (`p`/`h2` tag
plus the chunks merged into it) or a suppression comment wrapping the block
the chunk would have formed. -/
inductive OutItem where
  | block : String → List (JoinKind × Frag) → OutItem
  | comment : String → String → Frag → OutItem
deriving Repr

/-- The document-wide context the assembly loop reads: resolved statistics,
per-parity margins/indents, and the suppression options. -/
structure AsmCtx where
  most_frequent_leading : Int
  horiz_leeway : Int
  text_width : Int
  most_frequent_font : Option Font
  most_frequent_height : Int
  odd_left : Int
  odd_indent : Int
  even_left : Int
  even_indent : Int
  skip_initial_pages : Option Int
  header_pos : Option Int
  footer_pos : Option Int
deriving Repr

/-- The classifier statistics for one page parity. -/
def page_stats (ctx : AsmCtx) (indent left_margin : Int) : Stats :=
  { most_frequent_leading := ctx.most_frequent_leading,
    left_margin := left_margin, indent := indent,
    horiz_leeway := ctx.horiz_leeway, text_width := ctx.text_width }

/-- The loop state of the assembly pass: the `<body>` children so far, the
index of the currently open block (`para`; `none` before the first visible
chunk), the previous non-suppressed chunk, and the superscript bit. -/
structure AsmState where
  out : List OutItem
  open_idx : Option Nat
  prev_chunk : Option Frag
  prev_was_superscript : Bool
deriving Repr

/-- Replace the element at an index, leaving other positions (and the
length) unchanged — the mutation `para.append(...)` performs on the open
block already sitting inside `<body>`. -/
def modify_at {α : Type} (f : α → α) : Nat → List α → List α
  | _, [] => []
  | 0, x :: xs => f x :: xs
  | n + 1, x :: xs => x :: modify_at f n xs

/-- `modify_at` preserves length. -/
theorem modify_at_length {α : Type} (f : α → α) (n : Nat) (l : List α) :
    (modify_at f n l).length = l.length := by
  induction l generalizing n with
  | nil => cases n <;> rfl
  | cons x xs ih =>
      cases n with
      | zero => rfl
      | succ m => simp [modify_at, ih]

/-- Append one merged chunk to a block item (comments are never the open
block, so they pass through untouched). -/
def append_item (add : JoinKind × Frag) : OutItem → OutItem
  | OutItem.block tag chunks => OutItem.block tag (chunks ++ [add])
  | OutItem.comment r tag c => OutItem.comment r tag c

/-- The suppression test for one chunk, from the loop's options. -/
def step_suppress (ctx : AsmCtx) (page_number : Int) (chunk : Frag) :
    Option SuppressReason :=
  suppress_check ctx.skip_initial_pages ctx.header_pos ctx.footer_pos
    page_number chunk.top

/-- The classification outcome the loop acts on: NEW_BLOCK when there is no
previous visible chunk or the current chunk is suppressed (both make
`continues_paragraph` false with `start_superscript` still false), else the
classifier's verdict against the previous visible chunk. -/
def step_result (ctx : AsmCtx) (indent left_margin page_number : Int)
    (s : AsmState) (chunk : Frag) : ClassifyResult :=
  match s.prev_chunk with
  | none => ClassifyResult.new_block
  | some prev =>
      if (step_suppress ctx page_number chunk).isSome then ClassifyResult.new_block
      else classify (page_stats ctx indent left_margin) s.prev_was_superscript prev chunk

/-- What a continuation appends into the open block: a `<sup>`-nested chunk
for a superscript open, otherwise an inline join whose joiner is empty for
drop-cap joins and superscript closes and a newline for the rest (the source
re-evaluates `drop_cap(prev_chunk, chunk)` when choosing the joiner, so a
drop-cap-shaped pair joins with no separator whichever disjunct let it
continue). -/
def step_add (ctx : AsmCtx) (indent left_margin page_number : Int)
    (s : AsmState) (chunk : Frag) : JoinKind × Frag :=
  if step_result ctx indent left_margin page_number s chunk ==
      ClassifyResult.open_superscript then
    (JoinKind.sup_nested, chunk)
  else
    (JoinKind.joined
      (if (match s.prev_chunk with
           | some prev => drop_cap prev chunk
           | none => false) ||
          (step_result ctx indent left_margin page_number s chunk ==
             ClassifyResult.close_superscript)
       then "" else "\n"),
     chunk)

/-- The tag of a freshly opened block: `h2` for headings, else `p`. -/
def step_tag (ctx : AsmCtx) (chunk : Frag) : String :=
  if looks_like_a_heading ctx.most_frequent_font ctx.most_frequent_height chunk
  then "h2" else "p"

/-- One iteration of the assembly loop (source lines 506–598): join into the
open block when one exists and the chunk continues it; otherwise open a new
`p`/`h2` block — as a comment when suppressed, in which case neither the
previous chunk nor the superscript bit is updated. -/
def step (ctx : AsmCtx) (indent left_margin page_number : Int)
    (s : AsmState) (chunk : Frag) : AsmState :=
  if s.open_idx.isSome &&
      !(step_result ctx indent left_margin page_number s chunk ==
          ClassifyResult.new_block) then
    { out := match s.open_idx with
             | some i =>
                 modify_at
                   (append_item (step_add ctx indent left_margin page_number s chunk))
                   i s.out
             | none => s.out,
      open_idx := s.open_idx,
      prev_chunk := some chunk,
      prev_was_superscript :=
        step_result ctx indent left_margin page_number s chunk ==
          ClassifyResult.open_superscript }
  else
    match step_suppress ctx page_number chunk with
    | some r =>
        { out := s.out ++ [OutItem.comment (reason_string r) (step_tag ctx chunk) chunk],
          open_idx := s.open_idx,
          prev_chunk := s.prev_chunk,
          prev_was_superscript := s.prev_was_superscript }
    | none =>
        { out := s.out ++ [OutItem.block (step_tag ctx chunk) [(JoinKind.seed, chunk)]],
          open_idx := some s.out.length,
          prev_chunk := some chunk,
          prev_was_superscript :=
            step_result ctx indent left_margin page_number s chunk ==
              ClassifyResult.open_superscript }

/-- The assembler state invariant: a recorded previous visible chunk implies
an open block, and the open-block index points inside the output list. -/
def asm_inv (s : AsmState) : Bool :=
  (!s.prev_chunk.isSome || s.open_idx.isSome) &&
  (match s.open_idx with
   | some i => decide (i < s.out.length)
   | none => true)

/-- A page handed to the assembly loop. -/
structure AsmPage where
  number : Int
  texts : List Frag
deriving Repr

/-- Page parity selection for the assembly loop. -/
def odd_asm_page (p : AsmPage) : Bool := p.number % 2 == 1

/-- One page of the assembly loop: select the parity margin/indent, then
fold over the page's chunks. -/
def run_page (ctx : AsmCtx) (s : AsmState) (p : AsmPage) : AsmState :=
  let indent := if odd_asm_page p then ctx.odd_indent else ctx.even_indent
  let left_margin := if odd_asm_page p then ctx.odd_left else ctx.even_left
  p.texts.foldl (step ctx indent left_margin p.number) s

/-- The loop's initial state: `para = None`, `prev_chunk = None`,
`prev_was_superscript = False`, empty `<body>`. -/
def init_state : AsmState :=
  { out := [], open_idx := none, prev_chunk := none, prev_was_superscript := false }

/-- The whole assembly pass over the document's pages. -/
def run_doc (ctx : AsmCtx) (pages : List AsmPage) : AsmState :=
  pages.foldl (run_page ctx) init_state

/-- One loop iteration preserves the assembler invariant. -/
theorem step_preserves_inv (ctx : AsmCtx) (indent left_margin page_number : Int)
    (s : AsmState) (chunk : Frag) (h : asm_inv s = true) :
    asm_inv (step ctx indent left_margin page_number s chunk) = true := by
  unfold asm_inv at h
  unfold step
  cases hopen : s.open_idx with
  | none =>
      rw [hopen] at h
      simp only [Option.isSome_none, Bool.and_true] at h
      simp only [Option.isSome_none, Bool.false_and, Bool.false_eq_true, if_false]
      cases hsupp : step_suppress ctx page_number chunk with
      | some r =>
          have hp : s.prev_chunk = none := by
            cases hpc : s.prev_chunk with
            | none => rfl
            | some p => rw [hpc] at h; simp at h
          simp [asm_inv, hp]
      | none => simp [asm_inv, List.length_append]
  | some i =>
      rw [hopen] at h
      simp only [Option.isSome_some, Bool.or_true, Bool.true_and,
        decide_eq_true_eq] at h
      by_cases hres :
          (step_result ctx indent left_margin page_number s chunk ==
            ClassifyResult.new_block) = true
      · simp only [Option.isSome_some, hres, Bool.not_true, Bool.true_and,
          Bool.false_eq_true, if_false]
        cases hsupp : step_suppress ctx page_number chunk with
        | some r =>
            simp only [asm_inv, List.length_append]
            simp only [Bool.and_eq_true, Bool.or_eq_true, decide_eq_true_eq]
            constructor
            · by_cases hp : s.prev_chunk.isSome = true
              · right; rfl
              · left; simp [hp]
            · simp
              omega
        | none =>
            simp [asm_inv, List.length_append]
      · simp only [Option.isSome_some, Bool.true_and, Bool.not_eq_true',
          Bool.not_eq_false] at hres ⊢
        simp only [hres, if_true]
        simp [asm_inv, modify_at_length, h]

/-- Folding the loop over any chunk list preserves the invariant, so it
holds after every prefix of a page's chunk stream. -/
theorem foldl_step_preserves_inv (ctx : AsmCtx)
    (indent left_margin page_number : Int) (frags : List Frag) (s : AsmState)
    (h : asm_inv s = true) :
    asm_inv (frags.foldl (step ctx indent left_margin page_number) s) = true := by
  induction frags generalizing s with
  | nil => exact h
  | cons f fs ih =>
      exact ih _ (step_preserves_inv ctx indent left_margin page_number s f h)

/-- `run_page` preserves the invariant. -/
theorem run_page_preserves_inv (ctx : AsmCtx) (s : AsmState) (p : AsmPage)
    (h : asm_inv s = true) : asm_inv (run_page ctx s p) = true := by
  unfold run_page
  exact foldl_step_preserves_inv ctx _ _ _ p.texts s h

/-- Folding over any page list preserves the invariant, so it holds after
every prefix of the whole fragment stream. -/
theorem foldl_pages_preserves_inv (ctx : AsmCtx) (pages : List AsmPage)
    (s : AsmState) (h : asm_inv s = true) :
    asm_inv (pages.foldl (run_page ctx) s) = true := by
  induction pages generalizing s with
  | nil => exact h
  | cons p ps ih => exact ih _ (run_page_preserves_inv ctx s p h)

/-- A continuation-classified chunk is appended into the already-open block:
the output list keeps its length and the open index is unchanged. -/
theorem step_join_in_open_block (ctx : AsmCtx)
    (indent left_margin page_number : Int) (s : AsmState) (chunk prev : Frag)
    (h : asm_inv s = true) (hprev : s.prev_chunk = some prev)
    (hsupp : step_suppress ctx page_number chunk = none)
    (hres : classify (page_stats ctx indent left_margin) s.prev_was_superscript
              prev chunk ≠ ClassifyResult.new_block) :
    (step ctx indent left_margin page_number s chunk).out.length = s.out.length ∧
    (step ctx indent left_margin page_number s chunk).open_idx = s.open_idx ∧
    s.open_idx.isSome = true := by
  have hres' : step_result ctx indent left_margin page_number s chunk =
      classify (page_stats ctx indent left_margin) s.prev_was_superscript
        prev chunk := by
    unfold step_result
    rw [hprev, hsupp]
    rfl
  have hopen : s.open_idx.isSome = true := by
    unfold asm_inv at h
    rw [hprev] at h
    cases hoc : s.open_idx with
    | none => rw [hoc] at h; simp at h
    | some i => rfl
  obtain ⟨i, hi⟩ := Option.isSome_iff_exists.mp hopen
  have hlt : i < s.out.length := by
    unfold asm_inv at h
    rw [hi] at h
    simp only [Bool.and_eq_true, decide_eq_true_eq] at h
    exact h.2
  have hcond : (s.open_idx.isSome &&
      !(step_result ctx indent left_margin page_number s chunk ==
          ClassifyResult.new_block)) = true := by
    rw [hopen, hres']
    simp [hres]
  unfold step
  rw [if_pos hcond]
  refine ⟨?_, rfl, hopen⟩
  simp only [hi]
  exact modify_at_length _ _ _

/-- C9: the assembler invariant — a recorded previous visible fragment
implies an open block whose index lies inside the output — holds of the
initial state, is preserved by each loop iteration, hence holds after every
prefix of any page's fragment stream and after every prefix of the page
stream (in particular for a full document run); consequently a fragment
classified as any kind of continuation (plain, superscript open, superscript
close) is merged into the existing open block: the join branch runs with a
block open, appending no new output item and moving the open index
nowhere. -/
theorem c9_assembler_invariant :
    (∀ (ctx : AsmCtx) (indent left_margin page_number : Int)
       (s : AsmState) (chunk : Frag),
        asm_inv s = true →
        asm_inv (step ctx indent left_margin page_number s chunk) = true) ∧
    (∀ (ctx : AsmCtx) (indent left_margin page_number : Int)
       (frags : List Frag) (s : AsmState),
        asm_inv s = true →
        asm_inv (frags.foldl (step ctx indent left_margin page_number) s) = true) ∧
    (∀ (ctx : AsmCtx) (pages : List AsmPage) (s : AsmState),
        asm_inv s = true →
        asm_inv (pages.foldl (run_page ctx) s) = true) ∧
    (∀ (ctx : AsmCtx) (pages : List AsmPage),
        asm_inv (run_doc ctx pages) = true) ∧
    (∀ (ctx : AsmCtx) (indent left_margin page_number : Int)
       (s : AsmState) (chunk prev : Frag),
        asm_inv s = true → s.prev_chunk = some prev →
        step_suppress ctx page_number chunk = none →
        classify (page_stats ctx indent left_margin) s.prev_was_superscript
          prev chunk ≠ ClassifyResult.new_block →
        (step ctx indent left_margin page_number s chunk).out.length =
          s.out.length ∧
        (step ctx indent left_margin page_number s chunk).open_idx =
          s.open_idx ∧
        s.open_idx.isSome = true) :=
  ⟨step_preserves_inv,
   foldl_step_preserves_inv,
   foldl_pages_preserves_inv,
   fun ctx pages => foldl_pages_preserves_inv ctx pages init_state rfl,
   fun ctx indent left_margin page_number s chunk prev h h1 h2 h3 =>
     step_join_in_open_block ctx indent left_margin page_number s chunk prev
       h h1 h2 h3⟩

/-- A concrete assembly context for the C9 witness. -/
def c9ctx : AsmCtx :=
  { most_frequent_leading := 14, horiz_leeway := 0, text_width := 300,
    most_frequent_font := some font0, most_frequent_height := 12,
    odd_left := 60, odd_indent := 100, even_left := 60, even_indent := 100,
    skip_initial_pages := none, header_pos := none, footer_pos := none }

/-- The state after assembling the first visible chunk `c2prev`. -/
def c9s1 : AsmState := step c9ctx 100 60 1 init_state c2prev

/-- Witness for C9 at concrete inputs: the initial state satisfies the
invariant, each quantified part applies at the two-chunk page
`[c2prev, c2curr]`, and the continuation `c2curr` joins the open block of
`c9s1` without growing the output. -/
theorem c9_assembler_invariant_witness :
    asm_inv init_state = true ∧
    asm_inv (step c9ctx 100 60 1 init_state c2prev) = true ∧
    asm_inv ([c2prev, c2curr].foldl (step c9ctx 100 60 1) init_state) = true ∧
    asm_inv ([({ number := 1, texts := [c2prev, c2curr] } : AsmPage)].foldl
      (run_page c9ctx) init_state) = true ∧
    asm_inv (run_doc c9ctx [{ number := 1, texts := [c2prev, c2curr] }]) = true ∧
    c9s1.prev_chunk = some c2prev ∧
    step_suppress c9ctx 1 c2curr = none ∧
    classify (page_stats c9ctx 100 60) c9s1.prev_was_superscript c2prev c2curr ≠
      ClassifyResult.new_block ∧
    ((step c9ctx 100 60 1 c9s1 c2curr).out.length = c9s1.out.length ∧
     (step c9ctx 100 60 1 c9s1 c2curr).open_idx = c9s1.open_idx ∧
     c9s1.open_idx.isSome = true) :=
  ⟨rfl,
   c9_assembler_invariant.1 c9ctx 100 60 1 init_state c2prev rfl,
   c9_assembler_invariant.2.1 c9ctx 100 60 1 [c2prev, c2curr] init_state rfl,
   c9_assembler_invariant.2.2.1 c9ctx [{ number := 1, texts := [c2prev, c2curr] }]
     init_state rfl,
   c9_assembler_invariant.2.2.2.1 c9ctx [{ number := 1, texts := [c2prev, c2curr] }],
   rfl,
   rfl,
   by decide,
   c9_assembler_invariant.2.2.2.2 c9ctx 100 60 1 c9s1 c2curr c2prev
     (by decide) rfl rfl (by decide)⟩
